import Mathlib

/-!
Shallow embedding of the frontend of the BFF demo repository
(`src/frontend/src/lib/api.ts`, `src/frontend/src/lib/auth.ts`,
`src/frontend/src/providers/AuthProvider.tsx`).

The network is modelled as an oracle: each call to `fetch` is represented by a
`FetchOutcome` value describing what the transport did (a JSON response with a
status and parsed body, a non-JSON response with a status, or a thrown
JavaScript error).  The functions below are direct translations of the
TypeScript functions; toast notifications (`showErrorNotification`) are
modelled as a list of the notification messages emitted, in order, and
`throw` / `try` / `catch` is modelled with `Except`.
-/

deriving instance DecidableEq for Except

namespace BFF

/-- `User` interface from `auth.ts`: `user_id`, `username`, `roles`. -/
structure User where
  user_id : String
  username : String
  roles : List String
deriving DecidableEq, Repr

/-- A parsed JSON body, as far as the client inspects it: the fields
`message`, `error_code` (error bodies) and `user` (login success body).
`none` models an absent / `undefined` field. -/
structure JsonBody where
  message : Option String
  error_code : Option String
  user : Option User
deriving DecidableEq, Repr

/-- `ApiError` class from `api.ts`: `statusCode`, `message`, `errorData`. -/
structure ApiError where
  statusCode : Nat
  message : String
  errorData : Option JsonBody
deriving DecidableEq, Repr

/-- `this.errorCode = errorData?.error_code` in the `ApiError` constructor. -/
def ApiError.errorCode (e : ApiError) : Option String :=
  e.errorData.bind (fun d => d.error_code)

/-- A thrown JavaScript error, as far as the `catch` block in
`fetchWithErrorHandling` distinguishes them: an `ApiError`, a `TypeError`
(with its message), or anything else. -/
inductive JsError where
  | api (e : ApiError)
  | typeError (message : String)
  | other (tag : String)
deriving DecidableEq, Repr

/-- The value `fetchWithErrorHandling` returns on success: the parsed JSON
body (`return data`), or the raw response (`return response`, kept here as
its status code) when the content type is not JSON. -/
inductive FetchValue where
  | json (body : JsonBody)
  | raw (status : Nat)
deriving DecidableEq, Repr

/-- What one call to the browser `fetch` (plus `response.json()`) did:
a JSON response with an HTTP status and parsed body, a non-JSON response
with an HTTP status, or a thrown error (network failure etc.). -/
inductive FetchOutcome where
  | jsonResponse (status : Nat) (body : JsonBody)
  | rawResponse (status : Nat)
  | thrown (e : JsError)
deriving DecidableEq, Repr

/-- The HTTP status of the outcome, when a response was received at all. -/
def FetchOutcome.respStatus : FetchOutcome → Option Nat
  | .jsonResponse status _ => some status
  | .rawResponse status => some status
  | .thrown _ => none

/-- `response.ok`: status in the range 200-299. -/
def responseOk (status : Nat) : Bool :=
  200 ≤ status && status ≤ 299

/-- JavaScript `x || d` on an optional string: `undefined` and the empty
string are falsy and fall through to the default. -/
def jsStringOr (v : Option String) (d : String) : String :=
  match v with
  | some s => if s = "" then d else s
  | none => d

/-- Notification message constants from `api.ts` (Japanese toast texts). -/
def unknownErrorMsg : String := "不明なエラーが発生しました"

def backendConnectionMsg : String :=
  "バックエンドサービスに接続できません。しばらくしてからもう一度お試しください。"

def backendTimeoutMsg : String :=
  "サーバーの応答に時間がかかっています。しばらくしてからもう一度お試しください。"

def circuitOpenMsg : String :=
  "サービスは現在一時的に利用できません。メンテナンス中の可能性があります。"

def sessionExpiredMsg : String := "セッションが切れました。再度ログインしてください。"

def networkConnectMsg : String :=
  "サーバーに接続できません。インターネット接続を確認してください。"

def unexpectedErrorMsg : String := "予期しないエラーが発生しました"

/-- The non-JSON error message: the template literal with the status. -/
def rawErrorMsg (status : Nat) : String :=
  "エラーが発生しました (" ++ toString status ++ ")"

/-- The `switch (data.error_code)` in `fetchWithErrorHandling`, returning the
toast message shown for a given code (default: the server message). -/
def codeNotificationMsg (code : String) (errorMessage : String) : String :=
  match code with
  | "BACKEND_CONNECTION_ERROR" => backendConnectionMsg
  | "BACKEND_TIMEOUT" => backendTimeoutMsg
  | "CIRCUIT_OPEN" => circuitOpenMsg
  | "HTTP_401" => sessionExpiredMsg
  | _ => errorMessage

/-- `pat` occurs as a contiguous run inside `s`. -/
def containsSeq (pat : List Char) : List Char → Bool
  | [] => pat.isEmpty
  | c :: s => pat.isPrefixOf (c :: s) || containsSeq pat s

/-- `error.message.includes('fetch')`: the message contains `fetch`. -/
def messageMentionsFetch (msg : String) : Bool :=
  containsSeq "fetch".toList msg.toList

/-- The notification shown for a non-ok JSON response: `if (data.error_code)`
dispatch through the switch (an empty `error_code` is falsy), else the
server message (with the unknown-error default). -/
def failNotifMsg (body : JsonBody) : String :=
  let errorMessage := jsStringOr body.message unknownErrorMsg
  match body.error_code with
  | some code =>
    if code = "" then errorMessage else codeNotificationMsg code errorMessage
  | none => errorMessage

/-- The `try` block of `fetchWithErrorHandling` in `api.ts`: process the
response (or propagate the thrown error to the `catch`).  Returns the result
(`Except.error` meaning a thrown JS error) and the list of notifications
shown by this block. -/
def tryFetchBody : FetchOutcome → Except JsError FetchValue × List String
  | .jsonResponse status body =>
    if responseOk status then
      (Except.ok (FetchValue.json body), [])
    else
      (Except.error
        (JsError.api ⟨status, jsStringOr body.message unknownErrorMsg, some body⟩),
        [failNotifMsg body])
  | .rawResponse status =>
    if responseOk status then
      (Except.ok (FetchValue.raw status), [])
    else
      let m := rawErrorMsg status
      (Except.error (JsError.api ⟨status, m, none⟩), [m])
  | .thrown e => (Except.error e, [])

/-- The `catch` block of `fetchWithErrorHandling`: an `ApiError` is rethrown
unchanged; a `TypeError` mentioning `fetch` becomes a status-0 `ApiError`
with a connectivity notification; anything else gets the generic
notification and is rethrown as is. -/
def catchClause : JsError → JsError × List String
  | JsError.api a => (JsError.api a, [])
  | JsError.typeError msg =>
    if messageMentionsFetch msg then
      (JsError.api ⟨0, networkConnectMsg, none⟩, [networkConnectMsg])
    else
      (JsError.typeError msg, [unexpectedErrorMsg])
  | JsError.other tag => (JsError.other tag, [unexpectedErrorMsg])

/-- `fetchWithErrorHandling` from `api.ts`: the `try` block followed by the
`catch` block, accumulating the notifications of both. -/
def fetchWithErrorHandling (o : FetchOutcome) : Except JsError FetchValue × List String :=
  let r := tryFetchBody o
  match r.1 with
  | Except.ok v => (Except.ok v, r.2)
  | Except.error e => (Except.error (catchClause e).1, r.2 ++ (catchClause e).2)

/-- `error instanceof ApiError && error.statusCode === 401` in `checkAuth`. -/
def isApi401 : JsError → Bool
  | JsError.api a => a.statusCode == 401
  | JsError.typeError _ => false
  | JsError.other _ => false

/-- What the provider's `user` state may hold at runtime: the `data.user`
object returned by `loginUser`, or whatever value `checkAuth` returned
(the parsed body of `/auth/me`, or a raw response).  Absence (`null` /
`undefined`) is modelled by `Option` around this type. -/
inductive StoredUser where
  | ofUser (u : User)
  | ofValue (v : FetchValue)
deriving DecidableEq, Repr

/-- `data.user` on a fetch result: the `user` field of a JSON body,
`undefined` on a raw response. -/
def FetchValue.userField : FetchValue → Option User
  | FetchValue.json b => b.user
  | FetchValue.raw _ => none

/-- `checkAuth` from `auth.ts`: call `fetchWithErrorHandling` on `/auth/me`;
on success return the value; in the `catch`, a 401 `ApiError` is the normal
unauthenticated flow and returns `null`, and every other error is logged and
also returns `null`. -/
def checkAuth (o : FetchOutcome) : Except JsError (Option StoredUser) × List String :=
  let r := fetchWithErrorHandling o
  match r.1 with
  | Except.ok v => (Except.ok (some (StoredUser.ofValue v)), r.2)
  | Except.error e =>
    if isApi401 e then
      (Except.ok none, r.2)
    else
      (Except.ok none, r.2)

/-- `loginUser` from `auth.ts`: call `fetchWithErrorHandling` on
`/auth/login`; on success return `data.user`; in the `catch`, log and
rethrow the error. -/
def loginUser (o : FetchOutcome) : Except JsError (Option StoredUser) × List String :=
  let r := fetchWithErrorHandling o
  match r.1 with
  | Except.ok v => (Except.ok (v.userField.map StoredUser.ofUser), r.2)
  | Except.error e => (Except.error e, r.2)

/-- `logoutUser` from `auth.ts`: call `fetchWithErrorHandling` on
`/auth/logout`; any error is caught, logged as non-critical and swallowed. -/
def logoutUser (o : FetchOutcome) : Except JsError Unit × List String :=
  let r := fetchWithErrorHandling o
  match r.1 with
  | Except.ok _ => (Except.ok (), r.2)
  | Except.error _ => (Except.ok (), r.2)

/-- The provider's state: the three `useState` hooks of `AuthProvider`. -/
structure AuthState where
  user : Option StoredUser
  isLoading : Bool
  error : Option String
deriving DecidableEq, Repr

/-- The initial state of `AuthProvider`:
`useState(null)`, `useState(true)`, `useState(null)`. -/
def initialAuthState : AuthState :=
  { user := none, isLoading := true, error := none }

/-- Error message constants from `AuthProvider.tsx`. -/
def failedAuthMsg : String := "Failed to authenticate"

def loginFailedMsg : String := "Login failed. Please check your credentials."

def logoutFailedMsg : String := "Logout failed"

/-- `initialize` in `AuthProvider.tsx`: set `isLoading`, await `checkAuth`,
store its result in `user`; on a thrown error set `error`; `finally` clear
`isLoading`.  Returns (result to the caller, final state, notifications). -/
def initAuth (o : FetchOutcome) (s : AuthState) :
    Except JsError Unit × AuthState × List String :=
  let s1 : AuthState := { s with isLoading := true }
  let r := checkAuth o
  match r.1 with
  | Except.ok u =>
    (Except.ok (), { s1 with user := u, isLoading := false }, r.2)
  | Except.error _ =>
    (Except.ok (), { s1 with error := some failedAuthMsg, isLoading := false }, r.2)

/-- `login` in `AuthProvider.tsx`: set `isLoading`, clear `error`, await
`loginUser` and store its result in `user`; on a thrown error set `error`
and rethrow; `finally` clear `isLoading`. -/
def login (o : FetchOutcome) (s : AuthState) :
    Except JsError Unit × AuthState × List String :=
  let s1 : AuthState := { s with isLoading := true, error := none }
  let r := loginUser o
  match r.1 with
  | Except.ok u =>
    (Except.ok (), { s1 with user := u, isLoading := false }, r.2)
  | Except.error e =>
    (Except.error e, { s1 with error := some loginFailedMsg, isLoading := false }, r.2)

/-- `logout` in `AuthProvider.tsx`: set `isLoading`, await `logoutUser`, then
clear `user`; on a thrown error set `error`; `finally` clear `isLoading`. -/
def logout (o : FetchOutcome) (s : AuthState) :
    Except JsError Unit × AuthState × List String :=
  let s1 : AuthState := { s with isLoading := true }
  let r := logoutUser o
  match r.1 with
  | Except.ok _ =>
    (Except.ok (), { s1 with user := none, isLoading := false }, r.2)
  | Except.error _ =>
    (Except.ok (), { s1 with error := some logoutFailedMsg, isLoading := false }, r.2)

/-- The context value object `AuthProvider` renders for its observers. -/
structure AuthContextValue where
  user : Option StoredUser
  isLoading : Bool
  isAuthenticated : Bool
  error : Option String
deriving DecidableEq, Repr

/-- The `AuthContext.Provider value` built by `AuthProvider`:
`isAuthenticated` is computed as `!!user` (an object is truthy; `null` and
`undefined` are falsy). -/
def providerValue (s : AuthState) : AuthContextValue :=
  { user := s.user
    isLoading := s.isLoading
    isAuthenticated := s.user.isSome
    error := s.error }

/-! ## Helper lemmas -/

/-- A non-ok JSON response: one notification, and the thrown error is the
`ApiError` built from the response's status and body. -/
theorem fetchWEH_json_fail (status : Nat) (b : JsonBody)
    (h : responseOk status = false) :
    fetchWithErrorHandling (FetchOutcome.jsonResponse status b) =
      (Except.error
        (JsError.api ⟨status, jsStringOr b.message unknownErrorMsg, some b⟩),
        [failNotifMsg b]) := by
  simp [fetchWithErrorHandling, tryFetchBody, h, catchClause]

/-- A non-ok non-JSON response: one notification, and the thrown error is a
status-carrying `ApiError` with the generic message. -/
theorem fetchWEH_raw_fail (status : Nat) (h : responseOk status = false) :
    fetchWithErrorHandling (FetchOutcome.rawResponse status) =
      (Except.error (JsError.api ⟨status, rawErrorMsg status, none⟩),
        [rawErrorMsg status]) := by
  simp [fetchWithErrorHandling, tryFetchBody, h, catchClause]

/-- `logoutUser` swallows every error: its result is always `ok`. -/
theorem logoutUser_result_ok (o : FetchOutcome) :
    (logoutUser o).1 = Except.ok () := by
  cases h : (fetchWithErrorHandling o).1 <;> simp [logoutUser, h]

/-- `checkAuth` always returns (it never rethrows). -/
theorem checkAuth_result_ok (o : FetchOutcome) :
    ∃ u, (checkAuth o).1 = Except.ok u := by
  cases h : (fetchWithErrorHandling o).1 with
  | ok v => exact ⟨some (StoredUser.ofValue v), by simp [checkAuth, h]⟩
  | error e =>
    refine ⟨none, ?_⟩
    simp only [checkAuth, h]
    split <;> rfl

/-- When the underlying fetch throws (any error at all), `checkAuth`
returns `null`. -/
theorem checkAuth_fetch_error (o : FetchOutcome) (e : JsError)
    (h : (fetchWithErrorHandling o).1 = Except.error e) :
    (checkAuth o).1 = Except.ok none := by
  simp only [checkAuth, h]
  split <;> rfl

/-! ## Claims -/

/-- C1, counterexample: the claim says a 401 response to `/auth/me` triggers
no notification; on the 401 body the BFF sends for an expired session,
`checkAuth` does return a `null` user, but the client has already fired the
session-expired toast — the notification list is not empty. -/
theorem checkAuth_401_notification_counterexample :
    (checkAuth (FetchOutcome.jsonResponse 401
      { message := some "Unauthorized", error_code := some "HTTP_401", user := none })).1
      = Except.ok none ∧
    (checkAuth (FetchOutcome.jsonResponse 401
      { message := some "Unauthorized", error_code := some "HTTP_401", user := none })).2
      = [sessionExpiredMsg] ∧
    [sessionExpiredMsg] ≠ ([] : List String) := by
  decide

/-- C1, amended: for every response with HTTP status 401 to the `/auth/me`
check, after `checkAuth` settles the user is absent (and no error is
raised), but exactly one notification has been triggered by the HTTP
client's classification. -/
theorem checkAuth_401_user_absent_one_notification (o : FetchOutcome)
    (h : o.respStatus = some 401) :
    (checkAuth o).1 = Except.ok none ∧ (checkAuth o).2.length = 1 := by
  cases o with
  | jsonResponse s b =>
    obtain rfl : s = 401 := by simpa [FetchOutcome.respStatus] using h
    have hf := fetchWEH_json_fail 401 b (by decide)
    exact ⟨checkAuth_fetch_error _ _ (by rw [hf]), by simp [checkAuth, hf, isApi401]⟩
  | rawResponse s =>
    obtain rfl : s = 401 := by simpa [FetchOutcome.respStatus] using h
    have hf := fetchWEH_raw_fail 401 (by decide)
    exact ⟨checkAuth_fetch_error _ _ (by rw [hf]), by simp [checkAuth, hf, isApi401]⟩
  | thrown e => simp [FetchOutcome.respStatus] at h

/-- C1, witness for the amended claim at a concrete 401 response. -/
theorem checkAuth_401_user_absent_one_notification_witness :
    (checkAuth (FetchOutcome.jsonResponse 401
      { message := some "Unauthorized", error_code := some "HTTP_401", user := none })).1
      = Except.ok none ∧
    (checkAuth (FetchOutcome.jsonResponse 401
      { message := some "Unauthorized", error_code := some "HTTP_401", user := none })).2.length
      = 1 :=
  checkAuth_401_user_absent_one_notification _ rfl

/-- C2: every run of the store's `logout`, whatever the remote call did,
ends with `user` absent and `isLoading` false, and returns normally (the
failure is never re-raised to the caller). -/
theorem logout_clears_user_no_rethrow (o : FetchOutcome) (s : AuthState) :
    (logout o s).1 = Except.ok () ∧
    (logout o s).2.1.user = none ∧
    (logout o s).2.1.isLoading = false := by
  have h := logoutUser_result_ok o
  refine ⟨?_, ?_, ?_⟩ <;> simp [logout, h]

/-- C3: the store's `login` leaves `isLoading` false on every exit; on
success it returns normally with `user` set to the identity `loginUser`
returned and `error` absent; on failure it re-raises the same error and sets
`error` to the generic localized message. -/
theorem login_spec (o : FetchOutcome) (s : AuthState) :
    (login o s).2.1.isLoading = false ∧
    (∀ u, (loginUser o).1 = Except.ok u →
      (login o s).1 = Except.ok () ∧ (login o s).2.1.user = u ∧
        (login o s).2.1.error = none) ∧
    (∀ e, (loginUser o).1 = Except.error e →
      (login o s).1 = Except.error e ∧
        (login o s).2.1.error = some loginFailedMsg) := by
  refine ⟨?_, ?_, ?_⟩
  · cases h : (loginUser o).1 <;> simp [login, h]
  · intro u h; simp [login, h]
  · intro e h; simp [login, h]

/-- C3, witness: a concrete successful login stores the returned user, and a
concrete rejected login stores the generic error message. -/
theorem login_spec_witness :
    (login (FetchOutcome.jsonResponse 200
        { message := none, error_code := none, user := some ⟨"1", "alice", ["user"]⟩ })
      initialAuthState).2.1.user
      = some (StoredUser.ofUser ⟨"1", "alice", ["user"]⟩) ∧
    (login (FetchOutcome.jsonResponse 401
        { message := some "Invalid credentials", error_code := none, user := none })
      initialAuthState).2.1.error = some loginFailedMsg :=
  ⟨((login_spec (FetchOutcome.jsonResponse 200
        { message := none, error_code := none, user := some ⟨"1", "alice", ["user"]⟩ })
      initialAuthState).2.1
      (some (StoredUser.ofUser ⟨"1", "alice", ["user"]⟩)) (by decide)).2.1,
   ((login_spec (FetchOutcome.jsonResponse 401
        { message := some "Invalid credentials", error_code := none, user := none })
      initialAuthState).2.2
      (JsError.api ⟨401, "Invalid credentials",
        some { message := some "Invalid credentials", error_code := none, user := none }⟩)
      (by decide)).2⟩

/-- C4: the store's startup check returns normally on every outcome, leaves
`isLoading` false, stores exactly what `checkAuth` returned in `user`
(absent whenever the underlying fetch failed in any way), and would swallow
a thrown failure into the `error` field. -/
theorem initAuth_spec (o : FetchOutcome) (s : AuthState) :
    (initAuth o s).1 = Except.ok () ∧
    (initAuth o s).2.1.isLoading = false ∧
    (∀ u, (checkAuth o).1 = Except.ok u → (initAuth o s).2.1.user = u) ∧
    (∀ e, (fetchWithErrorHandling o).1 = Except.error e →
      (initAuth o s).2.1.user = none) ∧
    (∀ e, (checkAuth o).1 = Except.error e →
      (initAuth o s).2.1.error = some failedAuthMsg) := by
  obtain ⟨u0, hu0⟩ := checkAuth_result_ok o
  refine ⟨by simp [initAuth, hu0], by simp [initAuth, hu0], ?_, ?_, ?_⟩
  · intro u h; simp [initAuth, h]
  · intro e h; simp [initAuth, checkAuth_fetch_error o e h]
  · intro e h; simp [initAuth, h]

/-- C4, witness: at a concrete transport failure the startup check returns
normally and leaves the user absent. -/
theorem initAuth_spec_witness :
    (initAuth (FetchOutcome.thrown (JsError.other "boom")) initialAuthState).1
      = Except.ok () ∧
    (initAuth (FetchOutcome.thrown (JsError.other "boom")) initialAuthState).2.1.user
      = none :=
  ⟨(initAuth_spec (FetchOutcome.thrown (JsError.other "boom")) initialAuthState).1,
   (initAuth_spec (FetchOutcome.thrown (JsError.other "boom")) initialAuthState).2.2.2.1
     (JsError.other "boom") (by decide)⟩

/-- C5: every non-2xx HTTP response processed by one call to
`fetchWithErrorHandling` triggers exactly one notification, and the thrown
failure is an `ApiError` carrying the response's own status code and, for a
JSON response with a (truthy) server-supplied message, that message. -/
theorem fetch_fail_one_notification (o : FetchOutcome) (status : Nat)
    (h1 : o.respStatus = some status) (h2 : responseOk status = false) :
    (fetchWithErrorHandling o).2.length = 1 ∧
    ∃ a, (fetchWithErrorHandling o).1 = Except.error (JsError.api a) ∧
      a.statusCode = status ∧
      (∀ b m, o = FetchOutcome.jsonResponse status b → b.message = some m →
        m ≠ "" → a.message = m) := by
  cases o with
  | jsonResponse s b =>
    obtain rfl : s = status := by simpa [FetchOutcome.respStatus] using h1
    rw [fetchWEH_json_fail s b h2]
    refine ⟨rfl, ⟨s, jsStringOr b.message unknownErrorMsg, some b⟩, rfl, rfl, ?_⟩
    intro b' m heq hm hne
    obtain rfl : b = b' := by injection heq
    simp [jsStringOr, hm, hne]
  | rawResponse s =>
    obtain rfl : s = status := by simpa [FetchOutcome.respStatus] using h1
    rw [fetchWEH_raw_fail s h2]
    refine ⟨rfl, ⟨s, rawErrorMsg s, none⟩, rfl, rfl, ?_⟩
    intro b' m heq
    simp at heq
  | thrown e => simp [FetchOutcome.respStatus] at h1

/-- C5, witness at a concrete 500 JSON error response. -/
theorem fetch_fail_one_notification_witness :
    (fetchWithErrorHandling (FetchOutcome.jsonResponse 500
      { message := some "boom", error_code := none, user := none })).2.length = 1 :=
  (fetch_fail_one_notification (FetchOutcome.jsonResponse 500
      { message := some "boom", error_code := none, user := none }) 500
    rfl (by decide)).1

/-- C6: when the transport fails with no HTTP response (fetch throws the
browser's `TypeError` mentioning `fetch`), the client throws an `ApiError`
with status code 0 and fires the generic connectivity notification exactly
once. -/
theorem transport_failure_status_zero (msg : String)
    (h : messageMentionsFetch msg = true) :
    fetchWithErrorHandling (FetchOutcome.thrown (JsError.typeError msg)) =
      (Except.error (JsError.api ⟨0, networkConnectMsg, none⟩),
        [networkConnectMsg]) := by
  simp [fetchWithErrorHandling, tryFetchBody, catchClause, h]

/-- C6, witness at the browser's concrete connectivity error message. -/
theorem transport_failure_status_zero_witness :
    fetchWithErrorHandling (FetchOutcome.thrown (JsError.typeError "Failed to fetch")) =
      (Except.error (JsError.api ⟨0, networkConnectMsg, none⟩),
        [networkConnectMsg]) :=
  transport_failure_status_zero "Failed to fetch" (by decide)

/-- C7, counterexample: a 503 JSON response whose body carries
`error_code = "HTTP_401"` gets the session-expired notification, but the
thrown `ApiError` carries status 503, not 401 — the claim's "signals an
ApiError with status 401" fails. -/
theorem http401_code_status_counterexample :
    (fetchWithErrorHandling (FetchOutcome.jsonResponse 503
      { message := some "auth failed", error_code := some "HTTP_401", user := none })).1
      = Except.error (JsError.api ⟨503, "auth failed",
          some { message := some "auth failed", error_code := some "HTTP_401",
                 user := none }⟩) ∧
    (fetchWithErrorHandling (FetchOutcome.jsonResponse 503
      { message := some "auth failed", error_code := some "HTTP_401", user := none })).2
      = [sessionExpiredMsg] ∧
    (503 : Nat) ≠ 401 := by
  decide

/-- C7, amended: every non-2xx JSON response carrying
`error_code = "HTTP_401"` surfaces the session-expired notification and
throws an `ApiError` whose `errorCode` is `HTTP_401` and whose status code
is the response's own HTTP status (401 exactly when the response status
is 401). -/
theorem http401_code_amended (status : Nat) (b : JsonBody)
    (h1 : responseOk status = false) (h2 : b.error_code = some "HTTP_401") :
    (fetchWithErrorHandling (FetchOutcome.jsonResponse status b)).2
      = [sessionExpiredMsg] ∧
    ∃ a, (fetchWithErrorHandling (FetchOutcome.jsonResponse status b)).1
        = Except.error (JsError.api a) ∧
      a.statusCode = status ∧ a.errorCode = some "HTTP_401" := by
  rw [fetchWEH_json_fail status b h1]
  refine ⟨?_, ⟨status, jsStringOr b.message unknownErrorMsg, some b⟩, rfl, rfl, ?_⟩
  · simp [failNotifMsg, h2, codeNotificationMsg]
  · simp [ApiError.errorCode, h2]

/-- C7, witness for the amended claim at a genuine 401 response. -/
theorem http401_code_amended_witness :
    (fetchWithErrorHandling (FetchOutcome.jsonResponse 401
      { message := some "Unauthorized", error_code := some "HTTP_401", user := none })).2
      = [sessionExpiredMsg] :=
  (http401_code_amended 401
    { message := some "Unauthorized", error_code := some "HTTP_401", user := none }
    (by decide) rfl).1

/-- C8: the catch boundary of `fetchWithErrorHandling` is the identity on an
`ApiError` already constructed deeper in the chain: it is rethrown unchanged
and no additional notification is triggered. -/
theorem apiError_boundary_identity (a : ApiError) :
    fetchWithErrorHandling (FetchOutcome.thrown (JsError.api a)) =
      (Except.error (JsError.api a), []) := by
  simp [fetchWithErrorHandling, tryFetchBody, catchClause]

/-- C9: in the context value the provider exposes, `isAuthenticated` holds
exactly when `user` is present — in every state, and in particular after
each of the three operations. -/
theorem isAuthenticated_iff_user_present (s : AuthState) (o : FetchOutcome) :
    ((providerValue s).isAuthenticated = true ↔
      ∃ u, (providerValue s).user = some u) ∧
    ((providerValue (initAuth o s).2.1).isAuthenticated = true ↔
      ∃ u, (initAuth o s).2.1.user = some u) ∧
    ((providerValue (login o s).2.1).isAuthenticated = true ↔
      ∃ u, (login o s).2.1.user = some u) ∧
    ((providerValue (logout o s).2.1).isAuthenticated = true ↔
      ∃ u, (logout o s).2.1.user = some u) := by
  refine ⟨?_, ?_, ?_, ?_⟩ <;> simp [providerValue, Option.isSome_iff_exists]

/-- C10: `checkAuth` never throws — every failure of the underlying fetch,
of any kind, yields a `null` user — so the catch branch of the store's
startup check is unreachable: it returns normally and leaves the `error`
field exactly as it was. -/
theorem checkAuth_never_throws (o : FetchOutcome) (s : AuthState) :
    (∃ u, (checkAuth o).1 = Except.ok u) ∧
    (∀ e, (fetchWithErrorHandling o).1 = Except.error e →
      (checkAuth o).1 = Except.ok none) ∧
    (initAuth o s).1 = Except.ok () ∧
    (initAuth o s).2.1.error = s.error := by
  obtain ⟨u0, hu0⟩ := checkAuth_result_ok o
  exact ⟨⟨u0, hu0⟩, fun e h => checkAuth_fetch_error o e h,
    by simp [initAuth, hu0], by simp [initAuth, hu0]⟩

/-- C10, witness: at a concrete transport failure, `checkAuth` returns a
`null` user rather than throwing. -/
theorem checkAuth_never_throws_witness :
    (checkAuth (FetchOutcome.thrown (JsError.typeError "Failed to fetch"))).1
      = Except.ok none :=
  (checkAuth_never_throws (FetchOutcome.thrown (JsError.typeError "Failed to fetch"))
      initialAuthState).2.1
    (JsError.api ⟨0, networkConnectMsg, none⟩) (by decide)

end BFF
